import Mathlib

/-!
Shallow embedding of the `sdl3-rs` binding layer: the clipboard module
(`src/sdl3/clipboard.rs`) and the GPU descriptor builder module
(`src/sdl3/gpu/info_struct.rs`), together with theorems settling the
specification claims about them.

Conventions of the embedding:
* Rust `&str` / C byte buffers are `List Nat` (the UTF-8 bytes, each < 256
  in practice; byte-range side conditions are irrelevant to the claims).
* Raw pointers are `Nat` addresses, `0` standing for the null pointer.
* `f32` values that the code merely stores and never computes with are
  carried as `ℚ`; the one arithmetic site (`with_clear_color`'s
  `channel / 255.0`) is modelled by an explicit IEEE-754 binary32
  round-to-nearest-even function on nonnegative rationals.
* The external SDL library is an oracle `ClipEnv` fixing what each external
  entry point would return; each clipboard operation returns its result
  together with the exact list of external calls it performed, and a
  Rust panic (`unwrap` failure) is the `RunResult.panicked` outcome.
-/

namespace Sdl3

/-- Outcome of running a Rust function that may panic: either a normal
return or a panic (an `unwrap` failure). -/
inductive RunResult (α : Type) where
  | panicked : RunResult α
  | returned (v : α) : RunResult α
  deriving DecidableEq, Repr

/-- The crate's `Error` type: wraps the message obtained from the external
library's last-error entry point. -/
structure Error where
  msg : String
  deriving DecidableEq, Repr

/-- One call into the external SDL library made by the clipboard module.
`setText` records the exact byte sequence handed over (null terminator
included); `freeBuf` is `SDL_free` on the buffer returned by `getText`. -/
inductive ExtCall where
  | setText (bytes : List Nat) : ExtCall
  | getText : ExtCall
  | hasText : ExtCall
  | freeBuf : ExtCall
  deriving DecidableEq, Repr

/-- Oracle for the external SDL library: what each entry point would report
if called. `getTextResult = none` models `SDL_GetClipboardText` returning a
null pointer; `some bytes` models a non-null buffer whose C-string contents
(bytes before the terminator) are `bytes`. -/
structure ClipEnv where
  setTextResult : Bool
  getTextResult : Option (List Nat)
  hasTextResult : Bool
  lastError : String
  deriving DecidableEq, Repr

/-- Modelled from the spec: `crate::get_error` (not under `src/`) reads the
external library's own last-error message and wraps it in `Error`. -/
def get_error (env : ClipEnv) : Error := ⟨env.lastError⟩

/-- `CString::new(text)`: fails (returns `none`, which the code `unwrap`s
into a panic) when `text` holds an interior null byte; otherwise yields the
null-terminated copy. -/
def cstring_new (text : List Nat) : Option (List Nat) :=
  if 0 ∈ text then none else some (text ++ [0])

/-- Whether `c` is a UTF-8 continuation byte (`0x80..=0xBF`). -/
def utf8_cont (c : Nat) : Bool := 0x80 ≤ c && c ≤ 0xBF

/-- UTF-8 validity of a byte sequence exactly as Rust's `str::from_utf8`
checks it (RFC 3629: correct continuation bytes, no overlong forms, no
surrogates, nothing above U+10FFFF). This is the check performed by
`CStr::to_str` in `clipboard_text`. -/
def utf8_valid : List Nat → Bool
  | [] => true
  | b :: rest =>
    if b ≤ 0x7F then utf8_valid rest
    else if b < 0xC2 then false
    else if b ≤ 0xDF then
      match rest with
      | c :: r => utf8_cont c && utf8_valid r
      | [] => false
    else if b ≤ 0xEF then
      match rest with
      | c :: d :: r =>
        (if b = 0xE0 then decide (0xA0 ≤ c ∧ c ≤ 0xBF)
         else if b = 0xED then decide (0x80 ≤ c ∧ c ≤ 0x9F)
         else utf8_cont c) && utf8_cont d && utf8_valid r
      | _ => false
    else if b ≤ 0xF4 then
      match rest with
      | c :: d :: e :: r =>
        (if b = 0xF0 then decide (0x90 ≤ c ∧ c ≤ 0xBF)
         else if b = 0xF4 then decide (0x80 ≤ c ∧ c ≤ 0x8F)
         else utf8_cont c) && utf8_cont d && utf8_cont e && utf8_valid r
      | _ => false
    else false

/-- `ClipboardUtil::set_clipboard_text`, from `clipboard.rs`:
`CString::new(text).unwrap()` (panics on an interior null byte, making no
external call), then `SDL_SetClipboardText` on the null-terminated copy;
`Err(get_error())` when that call reports `false`, `Ok(())` otherwise.
Returns the outcome paired with the list of external calls performed. -/
def set_clipboard_text (env : ClipEnv) (text : List Nat) :
    RunResult (Except Error Unit) × List ExtCall :=
  match cstring_new text with
  | none => (.panicked, [])
  | some c =>
    if env.setTextResult then
      (.returned (.ok ()), [.setText c])
    else
      (.returned (.error (get_error env)), [.setText c])

/-- `ClipboardUtil::clipboard_text`, from `clipboard.rs`:
`SDL_GetClipboardText`; on a null pointer, `Err(get_error())`; otherwise
`CStr::from_ptr(buf).to_str().unwrap().to_owned()` (the `unwrap` panics on
invalid UTF-8, skipping the free), then `SDL_free(buf)`, then `Ok(s)`.
The returned string is carried as its byte sequence. -/
def clipboard_text (env : ClipEnv) :
    RunResult (Except Error (List Nat)) × List ExtCall :=
  match env.getTextResult with
  | none => (.returned (.error (get_error env)), [.getText])
  | some bytes =>
    if utf8_valid bytes then
      (.returned (.ok bytes), [.getText, .freeBuf])
    else
      (.panicked, [.getText])

/-- `ClipboardUtil::has_clipboard_text`, from `clipboard.rs`: returns the
bare boolean from `SDL_HasClipboardText`. -/
def has_clipboard_text (env : ClipEnv) : Bool × List ExtCall :=
  (env.hasTextResult, [.hasText])

end Sdl3

namespace Sdl3

/-- `u32` modulus: a Rust `as u32` cast reduces modulo this. -/
def u32_mod : Nat := 2 ^ 32

/-- A Rust slice `&[T]` as the descriptor setters consume it: the address
of its first element (`as_ptr`) and its length (`len`). -/
structure RSlice where
  ptr : Nat
  len : Nat
  deriving DecidableEq, Repr

/-- Modelled from the spec: an external GPU resource handle (`Texture`,
defined outside `src/`); `ll` is the opaque raw handle the setters store. -/
structure Texture where
  ll : Nat
  deriving DecidableEq, Repr

/-- Modelled from the spec: `TextureFormat` is the external library's
texture-format enum, stored verbatim; its first declared variant (INVALID)
has integer value 0. -/
structure TextureFormat where
  code : Nat
  deriving DecidableEq, Repr

/-- Modelled from the spec: `TextureUsage` is a `u32` bitflag newtype;
`with_usage` stores its raw value (`usage.0`). -/
structure TextureUsage where
  val : Nat
  deriving DecidableEq, Repr

/-- Modelled from the spec: the load-op enum, first declared variant
`LOAD`, then `CLEAR`, `DONT_CARE`; integer values 0, 1, 2. -/
inductive LoadOp where
  | load : LoadOp
  | clear : LoadOp
  | dontCare : LoadOp
  deriving DecidableEq, Repr

/-- Integer value of a `LoadOp` as stored in the C record. -/
def LoadOp.code : LoadOp → Nat
  | .load => 0
  | .clear => 1
  | .dontCare => 2

/-- Modelled from the spec: the store-op enum, first declared variant
`STORE`, then `DONT_CARE`, `RESOLVE`, `RESOLVE_AND_STORE`; values 0-3. -/
inductive StoreOp where
  | store : StoreOp
  | dontCare : StoreOp
  | resolve : StoreOp
  | resolveAndStore : StoreOp
  deriving DecidableEq, Repr

/-- Integer value of a `StoreOp` as stored in the C record. -/
def StoreOp.code : StoreOp → Nat
  | .store => 0
  | .dontCare => 1
  | .resolve => 2
  | .resolveAndStore => 3

/-- Modelled from the spec: texture dimensionality enum, first declared
variant the 2D texture type (value 0). -/
inductive TextureType where
  | twoD : TextureType
  | twoDArray : TextureType
  | threeD : TextureType
  | cube : TextureType
  | cubeArray : TextureType
  deriving DecidableEq, Repr

/-- Integer value of a `TextureType` (`r#type as i32`). -/
def TextureType.code : TextureType → Nat
  | .twoD => 0
  | .twoDArray => 1
  | .threeD => 2
  | .cube => 3
  | .cubeArray => 4

/-- Modelled from the spec: sample-count enum, first declared variant the
1-sample count (value 0). -/
inductive SampleCount where
  | one : SampleCount
  | two : SampleCount
  | four : SampleCount
  | eight : SampleCount
  deriving DecidableEq, Repr

/-- Integer value of a `SampleCount` (`sample_count as i32`). -/
def SampleCount.code : SampleCount → Nat
  | .one => 0
  | .two => 1
  | .four => 2
  | .eight => 3

/-- Modelled from the spec: sampler filter enum, first declared variant
`NEAREST` (value 0), then `LINEAR`. -/
inductive Filter where
  | nearest : Filter
  | linear : Filter
  deriving DecidableEq, Repr

/-- Integer value of a `Filter` (`filter as i32`). -/
def Filter.code : Filter → Nat
  | .nearest => 0
  | .linear => 1

/-- Modelled from the spec: mipmap-mode enum, first declared variant
`NEAREST` (value 0), then `LINEAR`. -/
inductive SamplerMipmapMode where
  | nearest : SamplerMipmapMode
  | linear : SamplerMipmapMode
  deriving DecidableEq, Repr

/-- Integer value of a `SamplerMipmapMode` (`mode as i32`). -/
def SamplerMipmapMode.code : SamplerMipmapMode → Nat
  | .nearest => 0
  | .linear => 1

/-- Modelled from the spec: sampler addressing-mode enum, first declared
variant `REPEAT` (value 0). -/
inductive SamplerAddressMode where
  | repeatAddr : SamplerAddressMode
  | mirroredRepeat : SamplerAddressMode
  | clampToEdge : SamplerAddressMode
  deriving DecidableEq, Repr

/-- Integer value of a `SamplerAddressMode` (`mode as i32`). -/
def SamplerAddressMode.code : SamplerAddressMode → Nat
  | .repeatAddr => 0
  | .mirroredRepeat => 1
  | .clampToEdge => 2

/-- Modelled from the spec: comparison-operator enum, first declared
variant `INVALID` (value 0). -/
inductive CompareOp where
  | invalid : CompareOp
  | never : CompareOp
  | less : CompareOp
  | equal : CompareOp
  | lessOrEqual : CompareOp
  | greater : CompareOp
  | notEqual : CompareOp
  | greaterOrEqual : CompareOp
  | always : CompareOp
  deriving DecidableEq, Repr

/-- Integer value of a `CompareOp` (`compare_op as i32`). -/
def CompareOp.code : CompareOp → Nat
  | .invalid => 0
  | .never => 1
  | .less => 2
  | .equal => 3
  | .lessOrEqual => 4
  | .greater => 5
  | .notEqual => 6
  | .greaterOrEqual => 7
  | .always => 8

/-- Modelled from the spec: `pixels::Color`, four 8-bit channels. -/
structure Color where
  r : Nat
  g : Nat
  b : Nat
  a : Nat
  deriving DecidableEq, Repr

/-- The external record's `SDL_FColor`: four `f32` channels, each carried
as the exactly-represented rational value. -/
structure FColor where
  r : ℚ
  g : ℚ
  b : ℚ
  a : ℚ
  deriving DecidableEq, Repr

end Sdl3

namespace Sdl3

/-- `2 ^ e` in `ℚ` for an integer exponent. -/
def pow2z (e : ℤ) : ℚ :=
  if 0 ≤ e then ((2 : ℚ) ^ e.toNat) else 1 / ((2 : ℚ) ^ (-e).toNat)

/-- Fuel-driven binary logarithm on `Nat` (structurally recursive so the
kernel can evaluate it): `log2fuel fuel n = ⌊log₂ n⌋` whenever
`fuel ≥ ⌊log₂ n⌋`, in particular for `fuel = n`. -/
def log2fuel : Nat → Nat → Nat
  | 0, _ => 0
  | fuel + 1, n => if n ≤ 1 then 0 else log2fuel fuel (n / 2) + 1

/-- `⌊log₂ n⌋` for positive `n`. -/
def nlog2 (n : Nat) : Nat := log2fuel n n

/-- `⌊log₂ (n / d)⌋` for positive naturals `n`, `d`: the first guess
`⌊log₂ n⌋ - ⌊log₂ d⌋` is off by at most one, corrected by comparing
`n / d` against `2 ^ guess` in exact integer arithmetic. -/
def qlog2 (n d : Nat) : ℤ :=
  let g : ℤ := (nlog2 n : ℤ) - (nlog2 d : ℤ)
  let lt : Bool :=
    if 0 ≤ g then decide (n < d * 2 ^ g.toNat) else decide (n * 2 ^ (-g).toNat < d)
  if lt then g - 1 else g

/-- Round the exact quotient `n / d` to an integer, ties to even (the
IEEE-754 default rounding), in pure `Nat` arithmetic. -/
def rneNat (n d : Nat) : Nat :=
  let f := n / d
  let r2 := 2 * (n % d)
  if r2 < d then f else if d < r2 then f + 1 else if f % 2 = 0 then f else f + 1

/-- The 24-bit significand of the binary32 value nearest `n / d`: the
quotient scaled to `[2^23, 2^24)` and rounded to nearest, ties to even. -/
def f32sig (n d : Nat) : Nat :=
  let s : ℤ := 23 - qlog2 n d
  if 0 ≤ s then rneNat (n * 2 ^ s.toNat) d else rneNat n (d * 2 ^ (-s).toNat)

/-- The rational value of the IEEE-754 binary32 (`f32`) number nearest to
`n / d` (round to nearest, ties to even), for quotients in the normal
range. This is the value produced by a correctly rounded `f32` division of
exactly representable operands, such as `(c as f32) / 255.0`. -/
def f32div (n d : Nat) : ℚ :=
  if n = 0 then 0 else (f32sig n d : ℚ) * pow2z (qlog2 n d - 23)

/-- The C record `SDL_GPUDepthStencilTargetInfo`, field-for-field; enum
fields carry their integer values, the texture pointer its address. -/
structure DepthStencilTargetInfo where
  texture : Nat
  clear_depth : ℚ
  load_op : Nat
  store_op : Nat
  stencil_load_op : Nat
  stencil_store_op : Nat
  cycle : Bool
  clear_stencil : Nat
  padding1 : Nat
  padding2 : Nat
  deriving DecidableEq, Repr

/-- The derived `Default` of `DepthStencilTargetInfo`: the external
record's zero initialization (null pointer, 0.0, enum value 0, false). -/
def DepthStencilTargetInfo.default : DepthStencilTargetInfo :=
  ⟨0, 0, 0, 0, 0, 0, false, 0, 0, 0⟩

/-- `DepthStencilTargetInfo::new`: `Default::default()`. -/
def DepthStencilTargetInfo.new : DepthStencilTargetInfo :=
  DepthStencilTargetInfo.default

/-- `DepthStencilTargetInfo::with_texture`: stores `texture.ll()`. -/
def DepthStencilTargetInfo.with_texture (d : DepthStencilTargetInfo)
    (texture : Texture) : DepthStencilTargetInfo :=
  { d with texture := texture.ll }

/-- `DepthStencilTargetInfo::with_clear_depth`. -/
def DepthStencilTargetInfo.with_clear_depth (d : DepthStencilTargetInfo)
    (clear_depth : ℚ) : DepthStencilTargetInfo :=
  { d with clear_depth := clear_depth }

/-- `DepthStencilTargetInfo::with_load_op`. -/
def DepthStencilTargetInfo.with_load_op (d : DepthStencilTargetInfo)
    (load_op : LoadOp) : DepthStencilTargetInfo :=
  { d with load_op := load_op.code }

/-- `DepthStencilTargetInfo::with_store_op`. -/
def DepthStencilTargetInfo.with_store_op (d : DepthStencilTargetInfo)
    (store_op : StoreOp) : DepthStencilTargetInfo :=
  { d with store_op := store_op.code }

/-- `DepthStencilTargetInfo::with_stencil_load_op`. -/
def DepthStencilTargetInfo.with_stencil_load_op (d : DepthStencilTargetInfo)
    (stencil_load_op : LoadOp) : DepthStencilTargetInfo :=
  { d with stencil_load_op := stencil_load_op.code }

/-- `DepthStencilTargetInfo::with_stencil_store_op`. -/
def DepthStencilTargetInfo.with_stencil_store_op (d : DepthStencilTargetInfo)
    (stencil_store_op : StoreOp) : DepthStencilTargetInfo :=
  { d with stencil_store_op := stencil_store_op.code }

/-- `DepthStencilTargetInfo::with_cycle`. -/
def DepthStencilTargetInfo.with_cycle (d : DepthStencilTargetInfo)
    (cycle : Bool) : DepthStencilTargetInfo :=
  { d with cycle := cycle }

/-- `DepthStencilTargetInfo::with_clear_stencil` (a `u8` argument). -/
def DepthStencilTargetInfo.with_clear_stencil (d : DepthStencilTargetInfo)
    (clear_stencil : Nat) : DepthStencilTargetInfo :=
  { d with clear_stencil := clear_stencil }

/-- The C record `SDL_GPUColorTargetInfo`, field-for-field. -/
structure ColorTargetInfo where
  texture : Nat
  mip_level : Nat
  layer_or_depth_plane : Nat
  clear_color : FColor
  load_op : Nat
  store_op : Nat
  resolve_texture : Nat
  resolve_mip_level : Nat
  resolve_layer : Nat
  cycle : Bool
  cycle_resolve_texture : Bool
  padding1 : Nat
  padding2 : Nat
  deriving DecidableEq, Repr

/-- The derived `Default` of `ColorTargetInfo`: zero initialization. -/
def ColorTargetInfo.default : ColorTargetInfo :=
  ⟨0, 0, 0, ⟨0, 0, 0, 0⟩, 0, 0, 0, 0, 0, false, false, 0, 0⟩

/-- `ColorTargetInfo::new`: `Default::default()`. -/
def ColorTargetInfo.new : ColorTargetInfo := ColorTargetInfo.default

/-- `ColorTargetInfo::with_texture`: stores `texture.ll()`. -/
def ColorTargetInfo.with_texture (d : ColorTargetInfo)
    (texture : Texture) : ColorTargetInfo :=
  { d with texture := texture.ll }

/-- `ColorTargetInfo::with_mip_level`. -/
def ColorTargetInfo.with_mip_level (d : ColorTargetInfo)
    (mip_level : Nat) : ColorTargetInfo :=
  { d with mip_level := mip_level }

/-- `ColorTargetInfo::with_layer_or_depth_plane`. -/
def ColorTargetInfo.with_layer_or_depth_plane (d : ColorTargetInfo)
    (layer_or_depth_plane : Nat) : ColorTargetInfo :=
  { d with layer_or_depth_plane := layer_or_depth_plane }

/-- `ColorTargetInfo::with_clear_color`: each `u8` channel is converted by
`(channel as f32) / 255.0` — an exact int-to-float conversion followed by
one correctly rounded binary32 division, i.e. `f32div channel 255`. -/
def ColorTargetInfo.with_clear_color (d : ColorTargetInfo)
    (clear_color : Color) : ColorTargetInfo :=
  { d with clear_color :=
      ⟨f32div clear_color.r 255,
       f32div clear_color.g 255,
       f32div clear_color.b 255,
       f32div clear_color.a 255⟩ }

/-- `ColorTargetInfo::with_load_op`. -/
def ColorTargetInfo.with_load_op (d : ColorTargetInfo)
    (load_op : LoadOp) : ColorTargetInfo :=
  { d with load_op := load_op.code }

/-- `ColorTargetInfo::with_store_op`. -/
def ColorTargetInfo.with_store_op (d : ColorTargetInfo)
    (store_op : StoreOp) : ColorTargetInfo :=
  { d with store_op := store_op.code }

/-- `ColorTargetInfo::with_resolve_texture`: stores `resolve_texture.ll()`. -/
def ColorTargetInfo.with_resolve_texture (d : ColorTargetInfo)
    (resolve_texture : Texture) : ColorTargetInfo :=
  { d with resolve_texture := resolve_texture.ll }

/-- `ColorTargetInfo::with_resolve_mip_level`. -/
def ColorTargetInfo.with_resolve_mip_level (d : ColorTargetInfo)
    (resolve_mip_level : Nat) : ColorTargetInfo :=
  { d with resolve_mip_level := resolve_mip_level }

/-- `ColorTargetInfo::with_resolve_layer`. -/
def ColorTargetInfo.with_resolve_layer (d : ColorTargetInfo)
    (resolve_layer : Nat) : ColorTargetInfo :=
  { d with resolve_layer := resolve_layer }

/-- `ColorTargetInfo::with_cycle`. -/
def ColorTargetInfo.with_cycle (d : ColorTargetInfo)
    (cycle : Bool) : ColorTargetInfo :=
  { d with cycle := cycle }

/-- `ColorTargetInfo::with_cycle_resolve_texture`. -/
def ColorTargetInfo.with_cycle_resolve_texture (d : ColorTargetInfo)
    (cycle_resolve_texture : Bool) : ColorTargetInfo :=
  { d with cycle_resolve_texture := cycle_resolve_texture }

end Sdl3

namespace Sdl3

/-- The C record `SDL_GPUTextureCreateInfo`, field-for-field (`props` is
the trailing `SDL_PropertiesID`, never touched by the builder). -/
structure TextureCreateInfo where
  type : Nat
  format : Nat
  usage : Nat
  width : Nat
  height : Nat
  layer_count_or_depth : Nat
  num_levels : Nat
  sample_count : Nat
  props : Nat
  deriving DecidableEq, Repr

/-- The derived `Default` of `TextureCreateInfo`: zero initialization. -/
def TextureCreateInfo.default : TextureCreateInfo :=
  ⟨0, 0, 0, 0, 0, 0, 0, 0, 0⟩

/-- `TextureCreateInfo::new`: `Default::default()`. -/
def TextureCreateInfo.new : TextureCreateInfo := TextureCreateInfo.default

/-- `TextureCreateInfo::with_type`: stores `SDL_GPUTextureType(type as i32)`. -/
def TextureCreateInfo.with_type (d : TextureCreateInfo)
    (t : TextureType) : TextureCreateInfo :=
  { d with type := t.code }

/-- `TextureCreateInfo::with_format`: stores the format value verbatim. -/
def TextureCreateInfo.with_format (d : TextureCreateInfo)
    (format : TextureFormat) : TextureCreateInfo :=
  { d with format := format.code }

/-- `TextureCreateInfo::with_usage`: stores `usage.0`. -/
def TextureCreateInfo.with_usage (d : TextureCreateInfo)
    (usage : TextureUsage) : TextureCreateInfo :=
  { d with usage := usage.val }

/-- `TextureCreateInfo::with_width`. -/
def TextureCreateInfo.with_width (d : TextureCreateInfo)
    (width : Nat) : TextureCreateInfo :=
  { d with width := width }

/-- `TextureCreateInfo::with_height`. -/
def TextureCreateInfo.with_height (d : TextureCreateInfo)
    (height : Nat) : TextureCreateInfo :=
  { d with height := height }

/-- `TextureCreateInfo::with_layer_count_or_depth`. -/
def TextureCreateInfo.with_layer_count_or_depth (d : TextureCreateInfo)
    (layer_count_or_depth : Nat) : TextureCreateInfo :=
  { d with layer_count_or_depth := layer_count_or_depth }

/-- `TextureCreateInfo::with_num_levels`. -/
def TextureCreateInfo.with_num_levels (d : TextureCreateInfo)
    (num_levels : Nat) : TextureCreateInfo :=
  { d with num_levels := num_levels }

/-- `TextureCreateInfo::with_sample_count`: stores
`SDL_GPUSampleCount(sample_count as i32)`. -/
def TextureCreateInfo.with_sample_count (d : TextureCreateInfo)
    (sample_count : SampleCount) : TextureCreateInfo :=
  { d with sample_count := sample_count.code }

/-- The C record `SDL_GPUSamplerCreateInfo`, field-for-field. -/
structure SamplerCreateInfo where
  min_filter : Nat
  mag_filter : Nat
  mipmap_mode : Nat
  address_mode_u : Nat
  address_mode_v : Nat
  address_mode_w : Nat
  mip_lod_bias : ℚ
  max_anisotropy : ℚ
  compare_op : Nat
  min_lod : ℚ
  max_lod : ℚ
  enable_anisotropy : Bool
  enable_compare : Bool
  padding1 : Nat
  padding2 : Nat
  props : Nat
  deriving DecidableEq, Repr

/-- The derived `Default` of `SamplerCreateInfo`: zero initialization. -/
def SamplerCreateInfo.default : SamplerCreateInfo :=
  ⟨0, 0, 0, 0, 0, 0, 0, 0, 0, 0, 0, false, false, 0, 0, 0⟩

/-- `SamplerCreateInfo::new`: `Default::default()`. -/
def SamplerCreateInfo.new : SamplerCreateInfo := SamplerCreateInfo.default

/-- `SamplerCreateInfo::with_min_filter`: stores `SDL_GPUFilter(filter as i32)`. -/
def SamplerCreateInfo.with_min_filter (d : SamplerCreateInfo)
    (filter : Filter) : SamplerCreateInfo :=
  { d with min_filter := filter.code }

/-- `SamplerCreateInfo::with_mag_filter`: stores `SDL_GPUFilter(filter as i32)`. -/
def SamplerCreateInfo.with_mag_filter (d : SamplerCreateInfo)
    (filter : Filter) : SamplerCreateInfo :=
  { d with mag_filter := filter.code }

/-- `SamplerCreateInfo::with_mipmap_mode`. -/
def SamplerCreateInfo.with_mipmap_mode (d : SamplerCreateInfo)
    (mode : SamplerMipmapMode) : SamplerCreateInfo :=
  { d with mipmap_mode := mode.code }

/-- `SamplerCreateInfo::with_address_mode_u`. -/
def SamplerCreateInfo.with_address_mode_u (d : SamplerCreateInfo)
    (mode : SamplerAddressMode) : SamplerCreateInfo :=
  { d with address_mode_u := mode.code }

/-- `SamplerCreateInfo::with_address_mode_v`. -/
def SamplerCreateInfo.with_address_mode_v (d : SamplerCreateInfo)
    (mode : SamplerAddressMode) : SamplerCreateInfo :=
  { d with address_mode_v := mode.code }

/-- `SamplerCreateInfo::with_address_mode_w`. -/
def SamplerCreateInfo.with_address_mode_w (d : SamplerCreateInfo)
    (mode : SamplerAddressMode) : SamplerCreateInfo :=
  { d with address_mode_w := mode.code }

/-- `SamplerCreateInfo::with_mip_lod_bias`. -/
def SamplerCreateInfo.with_mip_lod_bias (d : SamplerCreateInfo)
    (mip_lod_bias : ℚ) : SamplerCreateInfo :=
  { d with mip_lod_bias := mip_lod_bias }

/-- `SamplerCreateInfo::with_max_anisotropy`. -/
def SamplerCreateInfo.with_max_anisotropy (d : SamplerCreateInfo)
    (max_anisotropy : ℚ) : SamplerCreateInfo :=
  { d with max_anisotropy := max_anisotropy }

/-- `SamplerCreateInfo::with_compare_op`. -/
def SamplerCreateInfo.with_compare_op (d : SamplerCreateInfo)
    (compare_op : CompareOp) : SamplerCreateInfo :=
  { d with compare_op := compare_op.code }

/-- `SamplerCreateInfo::with_min_lod`. -/
def SamplerCreateInfo.with_min_lod (d : SamplerCreateInfo)
    (min_lod : ℚ) : SamplerCreateInfo :=
  { d with min_lod := min_lod }

/-- `SamplerCreateInfo::with_max_lod`. -/
def SamplerCreateInfo.with_max_lod (d : SamplerCreateInfo)
    (max_lod : ℚ) : SamplerCreateInfo :=
  { d with max_lod := max_lod }

/-- `SamplerCreateInfo::with_enable_anisotropy`. -/
def SamplerCreateInfo.with_enable_anisotropy (d : SamplerCreateInfo)
    (enable_anisotropy : Bool) : SamplerCreateInfo :=
  { d with enable_anisotropy := enable_anisotropy }

/-- `SamplerCreateInfo::with_enable_compare`. -/
def SamplerCreateInfo.with_enable_compare (d : SamplerCreateInfo)
    (enable_compare : Bool) : SamplerCreateInfo :=
  { d with enable_compare := enable_compare }

/-- The C record `SDL_GPUVertexInputState`, field-for-field: two
pointer/count pairs. -/
structure VertexInputState where
  vertex_buffer_descriptions : Nat
  num_vertex_buffers : Nat
  vertex_attributes : Nat
  num_vertex_attributes : Nat
  deriving DecidableEq, Repr

/-- The derived `Default` of `VertexInputState`: zero initialization. -/
def VertexInputState.default : VertexInputState := ⟨0, 0, 0, 0⟩

/-- `VertexInputState::new`: `Default::default()`. -/
def VertexInputState.new : VertexInputState := VertexInputState.default

/-- `VertexInputState::with_vertex_buffer_descriptions`: stores the slice's
`as_ptr()` and `len() as u32` (the `usize → u32` cast truncates). -/
def VertexInputState.with_vertex_buffer_descriptions (d : VertexInputState)
    (s : RSlice) : VertexInputState :=
  { d with
    vertex_buffer_descriptions := s.ptr,
    num_vertex_buffers := s.len % u32_mod }

/-- `VertexInputState::with_vertex_attributes`: stores the slice's
`as_ptr()` and `len() as u32`. -/
def VertexInputState.with_vertex_attributes (d : VertexInputState)
    (s : RSlice) : VertexInputState :=
  { d with
    vertex_attributes := s.ptr,
    num_vertex_attributes := s.len % u32_mod }

/-- The C record `SDL_GPUGraphicsPipelineTargetInfo`, field-for-field. -/
structure GraphicsPipelineTargetInfo where
  color_target_descriptions : Nat
  num_color_targets : Nat
  depth_stencil_format : Nat
  has_depth_stencil_target : Bool
  padding1 : Nat
  padding2 : Nat
  padding3 : Nat
  deriving DecidableEq, Repr

/-- The derived `Default` of `GraphicsPipelineTargetInfo`. -/
def GraphicsPipelineTargetInfo.default : GraphicsPipelineTargetInfo :=
  ⟨0, 0, 0, false, 0, 0, 0⟩

/-- `GraphicsPipelineTargetInfo::new`: `Default::default()`. -/
def GraphicsPipelineTargetInfo.new : GraphicsPipelineTargetInfo :=
  GraphicsPipelineTargetInfo.default

/-- `GraphicsPipelineTargetInfo::with_color_target_descriptions`: stores
the slice's `as_ptr()` and `len() as u32`. -/
def GraphicsPipelineTargetInfo.with_color_target_descriptions
    (d : GraphicsPipelineTargetInfo) (s : RSlice) :
    GraphicsPipelineTargetInfo :=
  { d with
    color_target_descriptions := s.ptr,
    num_color_targets := s.len % u32_mod }

/-- `GraphicsPipelineTargetInfo::with_depth_stencil_format`. -/
def GraphicsPipelineTargetInfo.with_depth_stencil_format
    (d : GraphicsPipelineTargetInfo) (depth_stencil_format : TextureFormat) :
    GraphicsPipelineTargetInfo :=
  { d with depth_stencil_format := depth_stencil_format.code }

/-- `GraphicsPipelineTargetInfo::with_has_depth_stencil_target`. -/
def GraphicsPipelineTargetInfo.with_has_depth_stencil_target
    (d : GraphicsPipelineTargetInfo) (has_depth_stencil_target : Bool) :
    GraphicsPipelineTargetInfo :=
  { d with has_depth_stencil_target := has_depth_stencil_target }

end Sdl3

namespace Sdl3

/-- C3: for a text with no interior null byte, `set_clipboard_text` makes
exactly one external set-text call, passing the null-terminated copy of the
text, and returns an error carrying the external library's last-error
message if and only if that call reports failure (`false`); on success it
returns `Ok(())`, with no other external call. -/
theorem set_clipboard_text_spec (env : ClipEnv) (text : List Nat)
    (h : 0 ∉ text) :
    (set_clipboard_text env text).2 = [ExtCall.setText (text ++ [0])] ∧
    ((set_clipboard_text env text).1 =
        RunResult.returned (Except.error ⟨env.lastError⟩) ↔
      env.setTextResult = false) ∧
    (env.setTextResult = true →
      (set_clipboard_text env text).1 = RunResult.returned (Except.ok ())) := by
  unfold set_clipboard_text cstring_new get_error
  rw [if_neg h]
  cases henv : env.setTextResult <;> simp

/-- Witness for `set_clipboard_text_spec` at text "Hi" (bytes 72, 105) and
an oracle whose set-text call fails with message "boom". -/
theorem set_clipboard_text_spec_witness :
    (0 ∉ ([72, 105] : List Nat)) ∧
    (set_clipboard_text ⟨false, none, false, "boom"⟩ [72, 105]).2 =
      [ExtCall.setText [72, 105, 0]] ∧
    (set_clipboard_text ⟨false, none, false, "boom"⟩ [72, 105]).1 =
      RunResult.returned (Except.error ⟨"boom"⟩) :=
  ⟨by decide,
   (set_clipboard_text_spec ⟨false, none, false, "boom"⟩ [72, 105] (by decide)).1,
   ((set_clipboard_text_spec ⟨false, none, false, "boom"⟩ [72, 105]
      (by decide)).2.1).mpr rfl⟩

/-- C5: for an input containing an embedded null byte, `set_clipboard_text`
panics (the `CString::new(..).unwrap()` programming-error failure) before
any external call: the call list is empty and no state changes. -/
theorem set_clipboard_text_interior_null (env : ClipEnv) (text : List Nat)
    (h : 0 ∈ text) :
    set_clipboard_text env text = (RunResult.panicked, []) := by
  unfold set_clipboard_text cstring_new
  rw [if_pos h]

/-- Witness for `set_clipboard_text_interior_null` at the byte string
`[65, 0, 66]` (embedded null). -/
theorem set_clipboard_text_interior_null_witness :
    (0 ∈ ([65, 0, 66] : List Nat)) ∧
    set_clipboard_text ⟨true, none, true, ""⟩ [65, 0, 66] =
      (RunResult.panicked, []) :=
  ⟨by decide,
   set_clipboard_text_interior_null ⟨true, none, true, ""⟩ [65, 0, 66]
     (by decide)⟩

/-- C7: `has_clipboard_text` returns exactly the boolean reported by the
external has-text entry point, with no error and no other external call
(hence no state change). -/
theorem has_clipboard_text_spec (env : ClipEnv) :
    (has_clipboard_text env).1 = env.hasTextResult ∧
    (has_clipboard_text env).2 = [ExtCall.hasText] :=
  ⟨rfl, rfl⟩

/-- C9: if the external get-text call returns a non-null buffer whose
contents are not valid UTF-8, `clipboard_text` panics (the
`to_str().unwrap()`), and the buffer is not released: `SDL_free` does not
appear in the call list. -/
theorem clipboard_text_invalid_utf8_panics (env : ClipEnv) (bytes : List Nat)
    (hb : env.getTextResult = some bytes) (hu : utf8_valid bytes = false) :
    clipboard_text env = (RunResult.panicked, [ExtCall.getText]) ∧
    ExtCall.freeBuf ∉ (clipboard_text env).2 := by
  have hc : clipboard_text env = (RunResult.panicked, [ExtCall.getText]) := by
    unfold clipboard_text
    rw [hb]
    simp [hu]
  exact ⟨hc, by rw [hc]; decide⟩

/-- Witness for `clipboard_text_invalid_utf8_panics` at a buffer holding
the single invalid byte `0xFF`. -/
theorem clipboard_text_invalid_utf8_panics_witness :
    utf8_valid [255] = false ∧
    clipboard_text ⟨true, some [255], true, "e"⟩ =
      (RunResult.panicked, [ExtCall.getText]) :=
  ⟨by decide,
   (clipboard_text_invalid_utf8_panics ⟨true, some [255], true, "e"⟩ [255]
      rfl (by decide)).1⟩

/-- C4 counterexample: at an oracle whose get-text call returns a non-null
buffer with the invalid-UTF-8 contents `[0xFF]`, `clipboard_text` does not
release the buffer (zero `SDL_free` calls) and returns no string — it
panics — refuting the claim that every non-null return is copied, freed
exactly once and returned. -/
theorem clipboard_text_claim_counterexample :
    (⟨true, some [255], true, "e"⟩ : ClipEnv).getTextResult = some [255] ∧
    (clipboard_text ⟨true, some [255], true, "e"⟩).1 = RunResult.panicked ∧
    (clipboard_text ⟨true, some [255], true, "e"⟩).2.count ExtCall.freeBuf = 0 := by
  exact ⟨rfl, rfl, rfl⟩

/-- C4 as amended: `clipboard_text` returns an error carrying the external
last-error message iff the get-text call returns a null pointer; on a
non-null buffer with valid UTF-8 contents it returns the copied contents
and releases the buffer exactly once, immediately after the copy; on a
non-null buffer with invalid UTF-8 contents it panics without releasing. -/
theorem clipboard_text_spec (env : ClipEnv) :
    ((clipboard_text env).1 =
        RunResult.returned (Except.error ⟨env.lastError⟩) ↔
      env.getTextResult = none) ∧
    (∀ bytes, env.getTextResult = some bytes → utf8_valid bytes = true →
      clipboard_text env =
        (RunResult.returned (Except.ok bytes),
         [ExtCall.getText, ExtCall.freeBuf])) ∧
    (∀ bytes, env.getTextResult = some bytes → utf8_valid bytes = false →
      clipboard_text env = (RunResult.panicked, [ExtCall.getText])) := by
  unfold clipboard_text get_error
  cases henv : env.getTextResult with
  | none => simp
  | some bytes =>
    cases hu : utf8_valid bytes <;> simp [hu]

/-- Witness for `clipboard_text_spec` at a buffer holding the valid UTF-8
byte `72` ("H"). -/
theorem clipboard_text_spec_witness :
    utf8_valid [72] = true ∧
    clipboard_text ⟨true, some [72], true, "e"⟩ =
      (RunResult.returned (Except.ok [72]),
       [ExtCall.getText, ExtCall.freeBuf]) :=
  ⟨by decide,
   (clipboard_text_spec ⟨true, some [72], true, "e"⟩).2.1 [72] rfl (by decide)⟩

end Sdl3

namespace Sdl3

/-- C1 counterexample: a second `with_vertex_buffer_descriptions` call that
stores the same pointer but an empty slice changes the `num_vertex_buffers`
field — a field other than the one the setter is named for — refuting
"every other field is identical to before the call" for slice setters. -/
theorem setter_isolation_counterexample :
    ((VertexInputState.new.with_vertex_buffer_descriptions
          ⟨100, 5⟩).with_vertex_buffer_descriptions ⟨100, 0⟩).num_vertex_buffers ≠
      ((VertexInputState.new.with_vertex_buffer_descriptions
          ⟨100, 5⟩)).num_vertex_buffers := by
  decide

/-- C1 as amended: every non-slice setter `with_X(v)` of
`DepthStencilTargetInfo` returns a descriptor whose field X is v (or its
exact conversion) with every other field identical to before the call, and
the two slice setters of `VertexInputState` set their pointer field and the
matching count field, leaving every other field identical; no setter has
any effect beyond the returned value. Each conjunct pins the whole returned
record. -/
theorem setter_isolation :
    (∀ (d : DepthStencilTargetInfo) (v : Texture),
      d.with_texture v =
        ⟨v.ll, d.clear_depth, d.load_op, d.store_op, d.stencil_load_op,
         d.stencil_store_op, d.cycle, d.clear_stencil, d.padding1, d.padding2⟩) ∧
    (∀ (d : DepthStencilTargetInfo) (v : ℚ),
      d.with_clear_depth v =
        ⟨d.texture, v, d.load_op, d.store_op, d.stencil_load_op,
         d.stencil_store_op, d.cycle, d.clear_stencil, d.padding1, d.padding2⟩) ∧
    (∀ (d : DepthStencilTargetInfo) (v : LoadOp),
      d.with_load_op v =
        ⟨d.texture, d.clear_depth, v.code, d.store_op, d.stencil_load_op,
         d.stencil_store_op, d.cycle, d.clear_stencil, d.padding1, d.padding2⟩) ∧
    (∀ (d : DepthStencilTargetInfo) (v : StoreOp),
      d.with_store_op v =
        ⟨d.texture, d.clear_depth, d.load_op, v.code, d.stencil_load_op,
         d.stencil_store_op, d.cycle, d.clear_stencil, d.padding1, d.padding2⟩) ∧
    (∀ (d : DepthStencilTargetInfo) (v : LoadOp),
      d.with_stencil_load_op v =
        ⟨d.texture, d.clear_depth, d.load_op, d.store_op, v.code,
         d.stencil_store_op, d.cycle, d.clear_stencil, d.padding1, d.padding2⟩) ∧
    (∀ (d : DepthStencilTargetInfo) (v : StoreOp),
      d.with_stencil_store_op v =
        ⟨d.texture, d.clear_depth, d.load_op, d.store_op, d.stencil_load_op,
         v.code, d.cycle, d.clear_stencil, d.padding1, d.padding2⟩) ∧
    (∀ (d : DepthStencilTargetInfo) (v : Bool),
      d.with_cycle v =
        ⟨d.texture, d.clear_depth, d.load_op, d.store_op, d.stencil_load_op,
         d.stencil_store_op, v, d.clear_stencil, d.padding1, d.padding2⟩) ∧
    (∀ (d : DepthStencilTargetInfo) (v : Nat),
      d.with_clear_stencil v =
        ⟨d.texture, d.clear_depth, d.load_op, d.store_op, d.stencil_load_op,
         d.stencil_store_op, d.cycle, v, d.padding1, d.padding2⟩) ∧
    (∀ (d : VertexInputState) (s : RSlice),
      d.with_vertex_buffer_descriptions s =
        ⟨s.ptr, s.len % u32_mod, d.vertex_attributes, d.num_vertex_attributes⟩) ∧
    (∀ (d : VertexInputState) (s : RSlice),
      d.with_vertex_attributes s =
        ⟨d.vertex_buffer_descriptions, d.num_vertex_buffers, s.ptr,
         s.len % u32_mod⟩) := by
  repeat' apply And.intro
  all_goals intros
  all_goals rfl

/-- C2: for every descriptor type modelled here, `new()` is exactly the
`Default` record, and that record has every numeric, pointer and `props`
field 0, every boolean field `false`, every float field 0.0, and every enum
field the integer value of the enum's first declared variant. -/
theorem new_default_zero :
    DepthStencilTargetInfo.new = DepthStencilTargetInfo.default ∧
    DepthStencilTargetInfo.new =
      ⟨0, 0, LoadOp.load.code, StoreOp.store.code, LoadOp.load.code,
       StoreOp.store.code, false, 0, 0, 0⟩ ∧
    ColorTargetInfo.new = ColorTargetInfo.default ∧
    ColorTargetInfo.new =
      ⟨0, 0, 0, ⟨0, 0, 0, 0⟩, LoadOp.load.code, StoreOp.store.code, 0, 0, 0,
       false, false, 0, 0⟩ ∧
    TextureCreateInfo.new = TextureCreateInfo.default ∧
    TextureCreateInfo.new =
      ⟨TextureType.twoD.code, (⟨0⟩ : TextureFormat).code,
       (⟨0⟩ : TextureUsage).val, 0, 0, 0, 0, SampleCount.one.code, 0⟩ ∧
    SamplerCreateInfo.new = SamplerCreateInfo.default ∧
    SamplerCreateInfo.new =
      ⟨Filter.nearest.code, Filter.nearest.code,
       SamplerMipmapMode.nearest.code, SamplerAddressMode.repeatAddr.code,
       SamplerAddressMode.repeatAddr.code, SamplerAddressMode.repeatAddr.code,
       0, 0, CompareOp.invalid.code, 0, 0, false, false, 0, 0, 0⟩ ∧
    VertexInputState.new = VertexInputState.default ∧
    VertexInputState.new = ⟨0, 0, 0, 0⟩ ∧
    GraphicsPipelineTargetInfo.new = GraphicsPipelineTargetInfo.default ∧
    GraphicsPipelineTargetInfo.new =
      ⟨0, 0, (⟨0⟩ : TextureFormat).code, false, 0, 0, 0⟩ := by
  repeat' apply And.intro
  all_goals rfl

/-- C10: each slice setter stores the slice's first-element pointer in its
pointer field and the slice length reduced modulo 2^32 (the `as u32` cast)
in its count field, leaving the remaining fields unchanged. -/
theorem slice_setters_store_len_mod (d : VertexInputState)
    (g : GraphicsPipelineTargetInfo) (s : RSlice) :
    (d.with_vertex_buffer_descriptions s).num_vertex_buffers = s.len % 2 ^ 32 ∧
    (d.with_vertex_buffer_descriptions s).vertex_buffer_descriptions = s.ptr ∧
    (d.with_vertex_buffer_descriptions s).vertex_attributes =
      d.vertex_attributes ∧
    (d.with_vertex_buffer_descriptions s).num_vertex_attributes =
      d.num_vertex_attributes ∧
    (d.with_vertex_attributes s).num_vertex_attributes = s.len % 2 ^ 32 ∧
    (d.with_vertex_attributes s).vertex_attributes = s.ptr ∧
    (d.with_vertex_attributes s).vertex_buffer_descriptions =
      d.vertex_buffer_descriptions ∧
    (d.with_vertex_attributes s).num_vertex_buffers = d.num_vertex_buffers ∧
    (g.with_color_target_descriptions s).num_color_targets = s.len % 2 ^ 32 ∧
    (g.with_color_target_descriptions s).color_target_descriptions = s.ptr ∧
    (g.with_color_target_descriptions s).depth_stencil_format =
      g.depth_stencil_format ∧
    (g.with_color_target_descriptions s).has_depth_stencil_target =
      g.has_depth_stencil_target := by
  repeat' apply And.intro
  all_goals rfl

/-- C6: `with_clear_color` stores each 0-255 channel as the binary32 value
of `channel / 255`: channels of 255 give exactly 1.0, channels of 0 give
exactly 0.0, and channels of 128 give a value within `2^-24` of the exact
`128 / 255` — for all four channels r, g, b, a. -/
theorem with_clear_color_conversion :
    (∀ d : ColorTargetInfo,
      (d.with_clear_color ⟨255, 255, 255, 255⟩).clear_color = ⟨1, 1, 1, 1⟩) ∧
    (∀ d : ColorTargetInfo,
      (d.with_clear_color ⟨0, 0, 0, 0⟩).clear_color = ⟨0, 0, 0, 0⟩) ∧
    (∀ d : ColorTargetInfo,
      |(d.with_clear_color ⟨128, 128, 128, 128⟩).clear_color.r - 128 / 255| ≤
          1 / 2 ^ 24 ∧
        |(d.with_clear_color ⟨128, 128, 128, 128⟩).clear_color.g - 128 / 255| ≤
          1 / 2 ^ 24 ∧
        |(d.with_clear_color ⟨128, 128, 128, 128⟩).clear_color.b - 128 / 255| ≤
          1 / 2 ^ 24 ∧
        |(d.with_clear_color ⟨128, 128, 128, 128⟩).clear_color.a - 128 / 255| ≤
          1 / 2 ^ 24) := by
  have hfull : f32div 255 255 = 1 := by
    have h1 : qlog2 255 255 = 0 := by decide
    have h2 : f32sig 255 255 = 8388608 := by decide
    rw [f32div, if_neg (by decide), h1, h2, pow2z]
    norm_num [show ((23 : ℤ)).toNat = 23 from rfl]
  have hzero : f32div 0 255 = 0 := by
    rw [f32div, if_pos rfl]
  have hhalf : f32div 128 255 = 8421505 / 16777216 := by
    have h1 : qlog2 128 255 = -1 := by decide
    have h2 : f32sig 128 255 = 8421505 := by decide
    rw [f32div, if_neg (by decide), h1, h2, pow2z]
    norm_num [show ((24 : ℤ)).toNat = 24 from rfl]
  refine ⟨fun d => ?_, fun d => ?_, fun d => ?_⟩
  · simp only [ColorTargetInfo.with_clear_color, hfull]
  · simp only [ColorTargetInfo.with_clear_color, hzero]
  · refine ⟨?_, ?_, ?_, ?_⟩ <;>
      · simp only [ColorTargetInfo.with_clear_color, hhalf]
        rw [abs_le]
        constructor <;> norm_num

end Sdl3

namespace Sdl3

/-- C8: setters for distinct fields commute and repeated application of the
same setter keeps only the last value, for every pair of setters of
`DepthStencilTargetInfo` and of `SamplerCreateInfo`. -/
theorem setters_commute_and_last_wins :
    (∀ (d : DepthStencilTargetInfo) (a : Texture) (b : ℚ),
      (d.with_texture a).with_clear_depth b = (d.with_clear_depth b).with_texture a) ∧
    (∀ (d : DepthStencilTargetInfo) (a : Texture) (b : LoadOp),
      (d.with_texture a).with_load_op b = (d.with_load_op b).with_texture a) ∧
    (∀ (d : DepthStencilTargetInfo) (a : Texture) (b : StoreOp),
      (d.with_texture a).with_store_op b = (d.with_store_op b).with_texture a) ∧
    (∀ (d : DepthStencilTargetInfo) (a : Texture) (b : LoadOp),
      (d.with_texture a).with_stencil_load_op b = (d.with_stencil_load_op b).with_texture a) ∧
    (∀ (d : DepthStencilTargetInfo) (a : Texture) (b : StoreOp),
      (d.with_texture a).with_stencil_store_op b = (d.with_stencil_store_op b).with_texture a) ∧
    (∀ (d : DepthStencilTargetInfo) (a : Texture) (b : Bool),
      (d.with_texture a).with_cycle b = (d.with_cycle b).with_texture a) ∧
    (∀ (d : DepthStencilTargetInfo) (a : Texture) (b : Nat),
      (d.with_texture a).with_clear_stencil b = (d.with_clear_stencil b).with_texture a) ∧
    (∀ (d : DepthStencilTargetInfo) (a : ℚ) (b : LoadOp),
      (d.with_clear_depth a).with_load_op b = (d.with_load_op b).with_clear_depth a) ∧
    (∀ (d : DepthStencilTargetInfo) (a : ℚ) (b : StoreOp),
      (d.with_clear_depth a).with_store_op b = (d.with_store_op b).with_clear_depth a) ∧
    (∀ (d : DepthStencilTargetInfo) (a : ℚ) (b : LoadOp),
      (d.with_clear_depth a).with_stencil_load_op b = (d.with_stencil_load_op b).with_clear_depth a) ∧
    (∀ (d : DepthStencilTargetInfo) (a : ℚ) (b : StoreOp),
      (d.with_clear_depth a).with_stencil_store_op b = (d.with_stencil_store_op b).with_clear_depth a) ∧
    (∀ (d : DepthStencilTargetInfo) (a : ℚ) (b : Bool),
      (d.with_clear_depth a).with_cycle b = (d.with_cycle b).with_clear_depth a) ∧
    (∀ (d : DepthStencilTargetInfo) (a : ℚ) (b : Nat),
      (d.with_clear_depth a).with_clear_stencil b = (d.with_clear_stencil b).with_clear_depth a) ∧
    (∀ (d : DepthStencilTargetInfo) (a : LoadOp) (b : StoreOp),
      (d.with_load_op a).with_store_op b = (d.with_store_op b).with_load_op a) ∧
    (∀ (d : DepthStencilTargetInfo) (a : LoadOp) (b : LoadOp),
      (d.with_load_op a).with_stencil_load_op b = (d.with_stencil_load_op b).with_load_op a) ∧
    (∀ (d : DepthStencilTargetInfo) (a : LoadOp) (b : StoreOp),
      (d.with_load_op a).with_stencil_store_op b = (d.with_stencil_store_op b).with_load_op a) ∧
    (∀ (d : DepthStencilTargetInfo) (a : LoadOp) (b : Bool),
      (d.with_load_op a).with_cycle b = (d.with_cycle b).with_load_op a) ∧
    (∀ (d : DepthStencilTargetInfo) (a : LoadOp) (b : Nat),
      (d.with_load_op a).with_clear_stencil b = (d.with_clear_stencil b).with_load_op a) ∧
    (∀ (d : DepthStencilTargetInfo) (a : StoreOp) (b : LoadOp),
      (d.with_store_op a).with_stencil_load_op b = (d.with_stencil_load_op b).with_store_op a) ∧
    (∀ (d : DepthStencilTargetInfo) (a : StoreOp) (b : StoreOp),
      (d.with_store_op a).with_stencil_store_op b = (d.with_stencil_store_op b).with_store_op a) ∧
    (∀ (d : DepthStencilTargetInfo) (a : StoreOp) (b : Bool),
      (d.with_store_op a).with_cycle b = (d.with_cycle b).with_store_op a) ∧
    (∀ (d : DepthStencilTargetInfo) (a : StoreOp) (b : Nat),
      (d.with_store_op a).with_clear_stencil b = (d.with_clear_stencil b).with_store_op a) ∧
    (∀ (d : DepthStencilTargetInfo) (a : LoadOp) (b : StoreOp),
      (d.with_stencil_load_op a).with_stencil_store_op b = (d.with_stencil_store_op b).with_stencil_load_op a) ∧
    (∀ (d : DepthStencilTargetInfo) (a : LoadOp) (b : Bool),
      (d.with_stencil_load_op a).with_cycle b = (d.with_cycle b).with_stencil_load_op a) ∧
    (∀ (d : DepthStencilTargetInfo) (a : LoadOp) (b : Nat),
      (d.with_stencil_load_op a).with_clear_stencil b = (d.with_clear_stencil b).with_stencil_load_op a) ∧
    (∀ (d : DepthStencilTargetInfo) (a : StoreOp) (b : Bool),
      (d.with_stencil_store_op a).with_cycle b = (d.with_cycle b).with_stencil_store_op a) ∧
    (∀ (d : DepthStencilTargetInfo) (a : StoreOp) (b : Nat),
      (d.with_stencil_store_op a).with_clear_stencil b = (d.with_clear_stencil b).with_stencil_store_op a) ∧
    (∀ (d : DepthStencilTargetInfo) (a : Bool) (b : Nat),
      (d.with_cycle a).with_clear_stencil b = (d.with_clear_stencil b).with_cycle a) ∧
    (∀ (d : DepthStencilTargetInfo) (a b : Texture),
      (d.with_texture a).with_texture b = d.with_texture b) ∧
    (∀ (d : DepthStencilTargetInfo) (a b : ℚ),
      (d.with_clear_depth a).with_clear_depth b = d.with_clear_depth b) ∧
    (∀ (d : DepthStencilTargetInfo) (a b : LoadOp),
      (d.with_load_op a).with_load_op b = d.with_load_op b) ∧
    (∀ (d : DepthStencilTargetInfo) (a b : StoreOp),
      (d.with_store_op a).with_store_op b = d.with_store_op b) ∧
    (∀ (d : DepthStencilTargetInfo) (a b : LoadOp),
      (d.with_stencil_load_op a).with_stencil_load_op b = d.with_stencil_load_op b) ∧
    (∀ (d : DepthStencilTargetInfo) (a b : StoreOp),
      (d.with_stencil_store_op a).with_stencil_store_op b = d.with_stencil_store_op b) ∧
    (∀ (d : DepthStencilTargetInfo) (a b : Bool),
      (d.with_cycle a).with_cycle b = d.with_cycle b) ∧
    (∀ (d : DepthStencilTargetInfo) (a b : Nat),
      (d.with_clear_stencil a).with_clear_stencil b = d.with_clear_stencil b) ∧
    (∀ (d : SamplerCreateInfo) (a : Filter) (b : Filter),
      (d.with_min_filter a).with_mag_filter b = (d.with_mag_filter b).with_min_filter a) ∧
    (∀ (d : SamplerCreateInfo) (a : Filter) (b : SamplerMipmapMode),
      (d.with_min_filter a).with_mipmap_mode b = (d.with_mipmap_mode b).with_min_filter a) ∧
    (∀ (d : SamplerCreateInfo) (a : Filter) (b : SamplerAddressMode),
      (d.with_min_filter a).with_address_mode_u b = (d.with_address_mode_u b).with_min_filter a) ∧
    (∀ (d : SamplerCreateInfo) (a : Filter) (b : SamplerAddressMode),
      (d.with_min_filter a).with_address_mode_v b = (d.with_address_mode_v b).with_min_filter a) ∧
    (∀ (d : SamplerCreateInfo) (a : Filter) (b : SamplerAddressMode),
      (d.with_min_filter a).with_address_mode_w b = (d.with_address_mode_w b).with_min_filter a) ∧
    (∀ (d : SamplerCreateInfo) (a : Filter) (b : ℚ),
      (d.with_min_filter a).with_mip_lod_bias b = (d.with_mip_lod_bias b).with_min_filter a) ∧
    (∀ (d : SamplerCreateInfo) (a : Filter) (b : ℚ),
      (d.with_min_filter a).with_max_anisotropy b = (d.with_max_anisotropy b).with_min_filter a) ∧
    (∀ (d : SamplerCreateInfo) (a : Filter) (b : CompareOp),
      (d.with_min_filter a).with_compare_op b = (d.with_compare_op b).with_min_filter a) ∧
    (∀ (d : SamplerCreateInfo) (a : Filter) (b : ℚ),
      (d.with_min_filter a).with_min_lod b = (d.with_min_lod b).with_min_filter a) ∧
    (∀ (d : SamplerCreateInfo) (a : Filter) (b : ℚ),
      (d.with_min_filter a).with_max_lod b = (d.with_max_lod b).with_min_filter a) ∧
    (∀ (d : SamplerCreateInfo) (a : Filter) (b : Bool),
      (d.with_min_filter a).with_enable_anisotropy b = (d.with_enable_anisotropy b).with_min_filter a) ∧
    (∀ (d : SamplerCreateInfo) (a : Filter) (b : Bool),
      (d.with_min_filter a).with_enable_compare b = (d.with_enable_compare b).with_min_filter a) ∧
    (∀ (d : SamplerCreateInfo) (a : Filter) (b : SamplerMipmapMode),
      (d.with_mag_filter a).with_mipmap_mode b = (d.with_mipmap_mode b).with_mag_filter a) ∧
    (∀ (d : SamplerCreateInfo) (a : Filter) (b : SamplerAddressMode),
      (d.with_mag_filter a).with_address_mode_u b = (d.with_address_mode_u b).with_mag_filter a) ∧
    (∀ (d : SamplerCreateInfo) (a : Filter) (b : SamplerAddressMode),
      (d.with_mag_filter a).with_address_mode_v b = (d.with_address_mode_v b).with_mag_filter a) ∧
    (∀ (d : SamplerCreateInfo) (a : Filter) (b : SamplerAddressMode),
      (d.with_mag_filter a).with_address_mode_w b = (d.with_address_mode_w b).with_mag_filter a) ∧
    (∀ (d : SamplerCreateInfo) (a : Filter) (b : ℚ),
      (d.with_mag_filter a).with_mip_lod_bias b = (d.with_mip_lod_bias b).with_mag_filter a) ∧
    (∀ (d : SamplerCreateInfo) (a : Filter) (b : ℚ),
      (d.with_mag_filter a).with_max_anisotropy b = (d.with_max_anisotropy b).with_mag_filter a) ∧
    (∀ (d : SamplerCreateInfo) (a : Filter) (b : CompareOp),
      (d.with_mag_filter a).with_compare_op b = (d.with_compare_op b).with_mag_filter a) ∧
    (∀ (d : SamplerCreateInfo) (a : Filter) (b : ℚ),
      (d.with_mag_filter a).with_min_lod b = (d.with_min_lod b).with_mag_filter a) ∧
    (∀ (d : SamplerCreateInfo) (a : Filter) (b : ℚ),
      (d.with_mag_filter a).with_max_lod b = (d.with_max_lod b).with_mag_filter a) ∧
    (∀ (d : SamplerCreateInfo) (a : Filter) (b : Bool),
      (d.with_mag_filter a).with_enable_anisotropy b = (d.with_enable_anisotropy b).with_mag_filter a) ∧
    (∀ (d : SamplerCreateInfo) (a : Filter) (b : Bool),
      (d.with_mag_filter a).with_enable_compare b = (d.with_enable_compare b).with_mag_filter a) ∧
    (∀ (d : SamplerCreateInfo) (a : SamplerMipmapMode) (b : SamplerAddressMode),
      (d.with_mipmap_mode a).with_address_mode_u b = (d.with_address_mode_u b).with_mipmap_mode a) ∧
    (∀ (d : SamplerCreateInfo) (a : SamplerMipmapMode) (b : SamplerAddressMode),
      (d.with_mipmap_mode a).with_address_mode_v b = (d.with_address_mode_v b).with_mipmap_mode a) ∧
    (∀ (d : SamplerCreateInfo) (a : SamplerMipmapMode) (b : SamplerAddressMode),
      (d.with_mipmap_mode a).with_address_mode_w b = (d.with_address_mode_w b).with_mipmap_mode a) ∧
    (∀ (d : SamplerCreateInfo) (a : SamplerMipmapMode) (b : ℚ),
      (d.with_mipmap_mode a).with_mip_lod_bias b = (d.with_mip_lod_bias b).with_mipmap_mode a) ∧
    (∀ (d : SamplerCreateInfo) (a : SamplerMipmapMode) (b : ℚ),
      (d.with_mipmap_mode a).with_max_anisotropy b = (d.with_max_anisotropy b).with_mipmap_mode a) ∧
    (∀ (d : SamplerCreateInfo) (a : SamplerMipmapMode) (b : CompareOp),
      (d.with_mipmap_mode a).with_compare_op b = (d.with_compare_op b).with_mipmap_mode a) ∧
    (∀ (d : SamplerCreateInfo) (a : SamplerMipmapMode) (b : ℚ),
      (d.with_mipmap_mode a).with_min_lod b = (d.with_min_lod b).with_mipmap_mode a) ∧
    (∀ (d : SamplerCreateInfo) (a : SamplerMipmapMode) (b : ℚ),
      (d.with_mipmap_mode a).with_max_lod b = (d.with_max_lod b).with_mipmap_mode a) ∧
    (∀ (d : SamplerCreateInfo) (a : SamplerMipmapMode) (b : Bool),
      (d.with_mipmap_mode a).with_enable_anisotropy b = (d.with_enable_anisotropy b).with_mipmap_mode a) ∧
    (∀ (d : SamplerCreateInfo) (a : SamplerMipmapMode) (b : Bool),
      (d.with_mipmap_mode a).with_enable_compare b = (d.with_enable_compare b).with_mipmap_mode a) ∧
    (∀ (d : SamplerCreateInfo) (a : SamplerAddressMode) (b : SamplerAddressMode),
      (d.with_address_mode_u a).with_address_mode_v b = (d.with_address_mode_v b).with_address_mode_u a) ∧
    (∀ (d : SamplerCreateInfo) (a : SamplerAddressMode) (b : SamplerAddressMode),
      (d.with_address_mode_u a).with_address_mode_w b = (d.with_address_mode_w b).with_address_mode_u a) ∧
    (∀ (d : SamplerCreateInfo) (a : SamplerAddressMode) (b : ℚ),
      (d.with_address_mode_u a).with_mip_lod_bias b = (d.with_mip_lod_bias b).with_address_mode_u a) ∧
    (∀ (d : SamplerCreateInfo) (a : SamplerAddressMode) (b : ℚ),
      (d.with_address_mode_u a).with_max_anisotropy b = (d.with_max_anisotropy b).with_address_mode_u a) ∧
    (∀ (d : SamplerCreateInfo) (a : SamplerAddressMode) (b : CompareOp),
      (d.with_address_mode_u a).with_compare_op b = (d.with_compare_op b).with_address_mode_u a) ∧
    (∀ (d : SamplerCreateInfo) (a : SamplerAddressMode) (b : ℚ),
      (d.with_address_mode_u a).with_min_lod b = (d.with_min_lod b).with_address_mode_u a) ∧
    (∀ (d : SamplerCreateInfo) (a : SamplerAddressMode) (b : ℚ),
      (d.with_address_mode_u a).with_max_lod b = (d.with_max_lod b).with_address_mode_u a) ∧
    (∀ (d : SamplerCreateInfo) (a : SamplerAddressMode) (b : Bool),
      (d.with_address_mode_u a).with_enable_anisotropy b = (d.with_enable_anisotropy b).with_address_mode_u a) ∧
    (∀ (d : SamplerCreateInfo) (a : SamplerAddressMode) (b : Bool),
      (d.with_address_mode_u a).with_enable_compare b = (d.with_enable_compare b).with_address_mode_u a) ∧
    (∀ (d : SamplerCreateInfo) (a : SamplerAddressMode) (b : SamplerAddressMode),
      (d.with_address_mode_v a).with_address_mode_w b = (d.with_address_mode_w b).with_address_mode_v a) ∧
    (∀ (d : SamplerCreateInfo) (a : SamplerAddressMode) (b : ℚ),
      (d.with_address_mode_v a).with_mip_lod_bias b = (d.with_mip_lod_bias b).with_address_mode_v a) ∧
    (∀ (d : SamplerCreateInfo) (a : SamplerAddressMode) (b : ℚ),
      (d.with_address_mode_v a).with_max_anisotropy b = (d.with_max_anisotropy b).with_address_mode_v a) ∧
    (∀ (d : SamplerCreateInfo) (a : SamplerAddressMode) (b : CompareOp),
      (d.with_address_mode_v a).with_compare_op b = (d.with_compare_op b).with_address_mode_v a) ∧
    (∀ (d : SamplerCreateInfo) (a : SamplerAddressMode) (b : ℚ),
      (d.with_address_mode_v a).with_min_lod b = (d.with_min_lod b).with_address_mode_v a) ∧
    (∀ (d : SamplerCreateInfo) (a : SamplerAddressMode) (b : ℚ),
      (d.with_address_mode_v a).with_max_lod b = (d.with_max_lod b).with_address_mode_v a) ∧
    (∀ (d : SamplerCreateInfo) (a : SamplerAddressMode) (b : Bool),
      (d.with_address_mode_v a).with_enable_anisotropy b = (d.with_enable_anisotropy b).with_address_mode_v a) ∧
    (∀ (d : SamplerCreateInfo) (a : SamplerAddressMode) (b : Bool),
      (d.with_address_mode_v a).with_enable_compare b = (d.with_enable_compare b).with_address_mode_v a) ∧
    (∀ (d : SamplerCreateInfo) (a : SamplerAddressMode) (b : ℚ),
      (d.with_address_mode_w a).with_mip_lod_bias b = (d.with_mip_lod_bias b).with_address_mode_w a) ∧
    (∀ (d : SamplerCreateInfo) (a : SamplerAddressMode) (b : ℚ),
      (d.with_address_mode_w a).with_max_anisotropy b = (d.with_max_anisotropy b).with_address_mode_w a) ∧
    (∀ (d : SamplerCreateInfo) (a : SamplerAddressMode) (b : CompareOp),
      (d.with_address_mode_w a).with_compare_op b = (d.with_compare_op b).with_address_mode_w a) ∧
    (∀ (d : SamplerCreateInfo) (a : SamplerAddressMode) (b : ℚ),
      (d.with_address_mode_w a).with_min_lod b = (d.with_min_lod b).with_address_mode_w a) ∧
    (∀ (d : SamplerCreateInfo) (a : SamplerAddressMode) (b : ℚ),
      (d.with_address_mode_w a).with_max_lod b = (d.with_max_lod b).with_address_mode_w a) ∧
    (∀ (d : SamplerCreateInfo) (a : SamplerAddressMode) (b : Bool),
      (d.with_address_mode_w a).with_enable_anisotropy b = (d.with_enable_anisotropy b).with_address_mode_w a) ∧
    (∀ (d : SamplerCreateInfo) (a : SamplerAddressMode) (b : Bool),
      (d.with_address_mode_w a).with_enable_compare b = (d.with_enable_compare b).with_address_mode_w a) ∧
    (∀ (d : SamplerCreateInfo) (a : ℚ) (b : ℚ),
      (d.with_mip_lod_bias a).with_max_anisotropy b = (d.with_max_anisotropy b).with_mip_lod_bias a) ∧
    (∀ (d : SamplerCreateInfo) (a : ℚ) (b : CompareOp),
      (d.with_mip_lod_bias a).with_compare_op b = (d.with_compare_op b).with_mip_lod_bias a) ∧
    (∀ (d : SamplerCreateInfo) (a : ℚ) (b : ℚ),
      (d.with_mip_lod_bias a).with_min_lod b = (d.with_min_lod b).with_mip_lod_bias a) ∧
    (∀ (d : SamplerCreateInfo) (a : ℚ) (b : ℚ),
      (d.with_mip_lod_bias a).with_max_lod b = (d.with_max_lod b).with_mip_lod_bias a) ∧
    (∀ (d : SamplerCreateInfo) (a : ℚ) (b : Bool),
      (d.with_mip_lod_bias a).with_enable_anisotropy b = (d.with_enable_anisotropy b).with_mip_lod_bias a) ∧
    (∀ (d : SamplerCreateInfo) (a : ℚ) (b : Bool),
      (d.with_mip_lod_bias a).with_enable_compare b = (d.with_enable_compare b).with_mip_lod_bias a) ∧
    (∀ (d : SamplerCreateInfo) (a : ℚ) (b : CompareOp),
      (d.with_max_anisotropy a).with_compare_op b = (d.with_compare_op b).with_max_anisotropy a) ∧
    (∀ (d : SamplerCreateInfo) (a : ℚ) (b : ℚ),
      (d.with_max_anisotropy a).with_min_lod b = (d.with_min_lod b).with_max_anisotropy a) ∧
    (∀ (d : SamplerCreateInfo) (a : ℚ) (b : ℚ),
      (d.with_max_anisotropy a).with_max_lod b = (d.with_max_lod b).with_max_anisotropy a) ∧
    (∀ (d : SamplerCreateInfo) (a : ℚ) (b : Bool),
      (d.with_max_anisotropy a).with_enable_anisotropy b = (d.with_enable_anisotropy b).with_max_anisotropy a) ∧
    (∀ (d : SamplerCreateInfo) (a : ℚ) (b : Bool),
      (d.with_max_anisotropy a).with_enable_compare b = (d.with_enable_compare b).with_max_anisotropy a) ∧
    (∀ (d : SamplerCreateInfo) (a : CompareOp) (b : ℚ),
      (d.with_compare_op a).with_min_lod b = (d.with_min_lod b).with_compare_op a) ∧
    (∀ (d : SamplerCreateInfo) (a : CompareOp) (b : ℚ),
      (d.with_compare_op a).with_max_lod b = (d.with_max_lod b).with_compare_op a) ∧
    (∀ (d : SamplerCreateInfo) (a : CompareOp) (b : Bool),
      (d.with_compare_op a).with_enable_anisotropy b = (d.with_enable_anisotropy b).with_compare_op a) ∧
    (∀ (d : SamplerCreateInfo) (a : CompareOp) (b : Bool),
      (d.with_compare_op a).with_enable_compare b = (d.with_enable_compare b).with_compare_op a) ∧
    (∀ (d : SamplerCreateInfo) (a : ℚ) (b : ℚ),
      (d.with_min_lod a).with_max_lod b = (d.with_max_lod b).with_min_lod a) ∧
    (∀ (d : SamplerCreateInfo) (a : ℚ) (b : Bool),
      (d.with_min_lod a).with_enable_anisotropy b = (d.with_enable_anisotropy b).with_min_lod a) ∧
    (∀ (d : SamplerCreateInfo) (a : ℚ) (b : Bool),
      (d.with_min_lod a).with_enable_compare b = (d.with_enable_compare b).with_min_lod a) ∧
    (∀ (d : SamplerCreateInfo) (a : ℚ) (b : Bool),
      (d.with_max_lod a).with_enable_anisotropy b = (d.with_enable_anisotropy b).with_max_lod a) ∧
    (∀ (d : SamplerCreateInfo) (a : ℚ) (b : Bool),
      (d.with_max_lod a).with_enable_compare b = (d.with_enable_compare b).with_max_lod a) ∧
    (∀ (d : SamplerCreateInfo) (a : Bool) (b : Bool),
      (d.with_enable_anisotropy a).with_enable_compare b = (d.with_enable_compare b).with_enable_anisotropy a) ∧
    (∀ (d : SamplerCreateInfo) (a b : Filter),
      (d.with_min_filter a).with_min_filter b = d.with_min_filter b) ∧
    (∀ (d : SamplerCreateInfo) (a b : Filter),
      (d.with_mag_filter a).with_mag_filter b = d.with_mag_filter b) ∧
    (∀ (d : SamplerCreateInfo) (a b : SamplerMipmapMode),
      (d.with_mipmap_mode a).with_mipmap_mode b = d.with_mipmap_mode b) ∧
    (∀ (d : SamplerCreateInfo) (a b : SamplerAddressMode),
      (d.with_address_mode_u a).with_address_mode_u b = d.with_address_mode_u b) ∧
    (∀ (d : SamplerCreateInfo) (a b : SamplerAddressMode),
      (d.with_address_mode_v a).with_address_mode_v b = d.with_address_mode_v b) ∧
    (∀ (d : SamplerCreateInfo) (a b : SamplerAddressMode),
      (d.with_address_mode_w a).with_address_mode_w b = d.with_address_mode_w b) ∧
    (∀ (d : SamplerCreateInfo) (a b : ℚ),
      (d.with_mip_lod_bias a).with_mip_lod_bias b = d.with_mip_lod_bias b) ∧
    (∀ (d : SamplerCreateInfo) (a b : ℚ),
      (d.with_max_anisotropy a).with_max_anisotropy b = d.with_max_anisotropy b) ∧
    (∀ (d : SamplerCreateInfo) (a b : CompareOp),
      (d.with_compare_op a).with_compare_op b = d.with_compare_op b) ∧
    (∀ (d : SamplerCreateInfo) (a b : ℚ),
      (d.with_min_lod a).with_min_lod b = d.with_min_lod b) ∧
    (∀ (d : SamplerCreateInfo) (a b : ℚ),
      (d.with_max_lod a).with_max_lod b = d.with_max_lod b) ∧
    (∀ (d : SamplerCreateInfo) (a b : Bool),
      (d.with_enable_anisotropy a).with_enable_anisotropy b = d.with_enable_anisotropy b) ∧
    (∀ (d : SamplerCreateInfo) (a b : Bool),
      (d.with_enable_compare a).with_enable_compare b = d.with_enable_compare b)
    := by
  repeat' apply And.intro
  all_goals intros
  all_goals rfl

end Sdl3
